import Mathlib

/-!
Shallow embedding of the service layer of the `enlaceibabackend` repository
(`src/services/auth.service.js`, `src/services/event.service.js`,
`src/services/blog.service.js`) and proofs about its error handling,
validation, authorization and password-reset behaviour.

Conventions of the embedding:
* Thrown JavaScript values are modelled by `JsError`: either one of the five
  classified domain errors from `src/utils/errors` or an arbitrary other
  exception (`JsError.other`).
* Stateful service methods take the relevant database tables as explicit
  state and return `Except JsError α × State`; a MySQL transaction that
  rolls back is modelled by returning the pre-transaction snapshot.
* `bcrypt.hash` / `bcrypt.compare` / `jwt.sign` / `jwt.verify` and the
  random reset token are passed in as function or value parameters.
* Machine integers of the store are modelled as `Int` (row ids, timestamps).
-/

/-- Error taxonomy of `src/utils/errors/index.js`: the five classified
domain error kinds raised by the services. -/
inductive DomainError where
  | validation (message : String) (fields : List String)
  | notFound (message : String)
  | authentication (message : String)
  | authorization (message : String)
  | database (message : String)
deriving Repr, DecidableEq

/-- A thrown JavaScript value: a classified domain error, or any other
exception (driver failures, type errors, ...). -/
inductive JsError where
  | domain (e : DomainError)
  | other (message : String)
deriving Repr, DecidableEq

namespace JsError

/-- Test mirroring `error instanceof ValidationError`. -/
def isValidation : JsError → Bool
  | .domain (.validation _ _) => true
  | _ => false

/-- Test mirroring `error instanceof AuthenticationError`. -/
def isAuthentication : JsError → Bool
  | .domain (.authentication _) => true
  | _ => false

/-- Test mirroring `error instanceof NotFoundError`. -/
def isNotFound : JsError → Bool
  | .domain (.notFound _) => true
  | _ => false

end JsError

/-- A requester identity as received by a service method: the routing layer
may hand it over as a JavaScript number or as a string. -/
inductive UserId where
  | num (n : Int)
  | str (s : String)
deriving Repr, DecidableEq

/-- Value of a nonnegative decimal digit string, `none` otherwise. -/
def decimalNat? (s : String) : Option Nat :=
  if s.data ≠ [] ∧ s.data.all Char.isDigit then
    some (s.data.foldl (fun n c => n * 10 + (c.toNat - 48)) 0)
  else none

/-- JavaScript `parseInt` restricted to the values the services receive:
numbers parse to themselves and nonnegative decimal strings to their value;
any other string yields `none`, standing for `NaN`. -/
def parseIntJs : UserId → Option Int
  | .num n => some n
  | .str s => (decimalNat? s).map Int.ofNat

/-- Ownership test mirroring `record.owner !== parseInt(userId)`: `true`
when the comparison fails (a `NaN` on the right compares unequal to
everything). -/
def ownerMismatch (owner : Int) (uid : UserId) : Bool :=
  match parseIntJs uid with
  | some n => decide (owner ≠ n)
  | none => true

/-- MySQL numeric coercion of a bound identity parameter compared against an
INT column (`WHERE id = ?`): numbers keep their value, decimal strings are
coerced to their numeric value, other strings coerce to 0. -/
def mysqlIdValue : UserId → Int
  | .num n => n
  | .str s => ((decimalNat? s).map Int.ofNat).getD 0

/- ## Authentication service state (tables `users`, `auth_credentials`) -/

/-- Row of the `users` table, restricted to the columns the embedded
methods read or write. -/
structure UserRow where
  id : Int
  first_name : String
  last_name : String
  email : String
  phone : Option String
  status : String
  role : String
  refresh_token : Option String
  last_login : Option Int
deriving Repr, DecidableEq

/-- Row of the `auth_credentials` table. -/
structure CredentialRow where
  id : Int
  user_id : Int
  password : String
  reset_token : Option String
  reset_token_expires : Option Int
deriving Repr, DecidableEq

/-- State touched by `AuthService`: the `users` and `auth_credentials`
tables. -/
structure AuthDB where
  users : List UserRow
  credentials : List CredentialRow
deriving Repr, DecidableEq

namespace AuthService

/-- Result of a successful login: the matched user's id together with the
two freshly signed tokens. -/
structure LoginResult where
  userId : Int
  accessToken : String
  refreshToken : String
deriving Repr, DecidableEq

/-- Embedding of `AuthService.login` (src/services/auth.service.js:157-223).
`compare` models `bcrypt.compare`, `signAccess`/`signRefresh` model
`jwt.sign` for the two token kinds, `now` models `NOW()` for the
`last_login` column. The outer `match` is the `catch` block: an
`AuthenticationError` is rethrown, everything else becomes
`DatabaseError('Failed to process login')`. -/
def login (db : AuthDB) (compare : String → String → Bool)
    (signAccess signRefresh : UserRow → String) (now : Int)
    (email password : String) : Except JsError LoginResult × AuthDB :=
  let inner : Except JsError LoginResult × AuthDB :=
    match db.users.filter (fun u => decide (u.email = email)) with
    | [] => (.error (.domain (.authentication "Invalid email or password")), db)
    | user :: _ =>
      match db.credentials.filter (fun c => decide (c.user_id = user.id)) with
      | [] => (.error (.domain (.authentication "No authentication credentials found")), db)
      | cred :: _ =>
        if compare password cred.password then
          let access := signAccess user
          let refresh := signRefresh user
          let db' : AuthDB :=
            { db with users := db.users.map (fun u =>
                if u.id = user.id then
                  { u with refresh_token := some refresh, last_login := some now }
                else u) }
          (.ok ⟨user.id, access, refresh⟩, db')
        else
          (.error (.domain (.authentication "Invalid email or password")), db)
  match inner with
  | (.ok r, db') => (.ok r, db')
  | (.error e, db') =>
    if e.isAuthentication then (.error e, db')
    else (.error (.domain (.database "Failed to process login")), db')

/-- Input of `AuthService.register`. -/
structure RegisterInput where
  first_name : String
  last_name : String
  email : String
  phone : Option String
  password : String
deriving Repr, DecidableEq

/-- Fresh id handed back by `INSERT INTO users` (`userResult.insertId`):
one past the largest existing id. -/
def nextUserId (db : AuthDB) : Int :=
  (db.users.foldl (fun m u => max m u.id) 0) + 1

/-- Embedding of `AuthService.register` (src/services/auth.service.js:31-106).
`hash` models `bcrypt.hash(·, 10)`; `credInsertFails` injects a failure of
the `INSERT INTO auth_credentials` statement (the `created_at`/`updated_at`
columns set from `NOW()` are not read anywhere modelled and are omitted
from `UserRow`). The transaction is modelled by returning the pre-transaction
snapshot `db` when the inner block fails (`connection.rollback()`); the
outer `match` is the outer `catch`: a `ValidationError` is rethrown,
everything else becomes `DatabaseError('Failed to register user')`. -/
def register (db : AuthDB) (hash : String → String)
    (credInsertFails : Bool) (input : RegisterInput) :
    Except JsError UserRow × AuthDB :=
  let outer : Except JsError UserRow × AuthDB :=
    if (db.users.filter (fun u => decide (u.email = input.email))).length > 0 then
      (.error (.domain (.validation "Email is already registered" [])), db)
    else
      let hashed := hash input.password
      -- begin transaction
      let userId := nextUserId db
      let newUser : UserRow :=
        { id := userId, first_name := input.first_name,
          last_name := input.last_name, email := input.email,
          phone := input.phone, status := "active", role := "user",
          refresh_token := none, last_login := none }
      let dbWithUser : AuthDB := { db with users := db.users ++ [newUser] }
      if credInsertFails then
        -- rollback: restore the pre-transaction snapshot, rethrow
        (.error (.other "auth_credentials insert failed"), db)
      else
        let cred : CredentialRow :=
          { id := userId, user_id := userId, password := hashed,
            reset_token := none, reset_token_expires := none }
        let db2 : AuthDB :=
          { dbWithUser with credentials := dbWithUser.credentials ++ [cred] }
        (.ok newUser, db2)
  match outer with
  | (.ok r, db') => (.ok r, db')
  | (.error e, db') =>
    if e.isValidation then (.error e, db')
    else (.error (.domain (.database "Failed to register user")), db')

/-- Embedding of `AuthService.requestPasswordReset`
(src/services/auth.service.js:269-302). `resetToken` models the value of
`crypto.randomBytes(32).toString('hex')` and `expires` the timestamp one
hour from issuance. The `catch` block wraps EVERY error — including the
`NotFoundError` thrown for an unknown email — as
`DatabaseError('Failed to process password reset request')`. -/
def requestPasswordReset (db : AuthDB) (resetToken : String) (expires : Int)
    (email : String) : Except JsError String × AuthDB :=
  let inner : Except JsError String × AuthDB :=
    match db.users.filter (fun u => decide (u.email = email)) with
    | [] => (.error (.domain (.notFound "User not found")), db)
    | user :: _ =>
      let db' : AuthDB :=
        { db with credentials := db.credentials.map (fun c =>
            if c.user_id = user.id then
              { c with reset_token := some resetToken,
                       reset_token_expires := some expires }
            else c) }
      (.ok resetToken, db')
  match inner with
  | (.ok r, db') => (.ok r, db')
  | (.error _, db') =>
    (.error (.domain (.database "Failed to process password reset request")), db')

/-- Payload of a decoded refresh token (`jwt.verify` result): the token
embeds the user id only. -/
structure TokenClaims where
  id : Int
deriving Repr, DecidableEq

/-- Embedding of `AuthService.refreshToken`
(src/services/auth.service.js:240-267). `verify` models `jwt.verify`
(`none` = verification threw); `dbFault` injects an unexpected failure of
the `SELECT` against `users`; `signAccess` models `jwt.sign`. The `catch`
block wraps EVERY error as
`AuthenticationError('Invalid refresh token')`. -/
def refreshToken (db : AuthDB) (verify : String → Option TokenClaims)
    (dbFault : Option String) (signAccess : UserRow → String)
    (token : String) : Except JsError String × AuthDB :=
  let inner : Except JsError String × AuthDB :=
    match verify token with
    | none => (.error (.other "jwt verification failed"), db)
    | some decoded =>
      match dbFault with
      | some m => (.error (.other m), db)
      | none =>
        match db.users.filter (fun u =>
            decide (u.id = decoded.id ∧ u.refresh_token = some token)) with
        | [] => (.error (.domain (.authentication "Invalid refresh token")), db)
        | user :: _ => (.ok (signAccess user), db)
  match inner with
  | (.ok r, db') => (.ok r, db')
  | (.error _, db') =>
    (.error (.domain (.authentication "Invalid refresh token")), db')

/-- SQL predicate `reset_token_expires > NOW()` on a nullable column: a
NULL expiry never compares greater. -/
def expiresInFuture (now : Int) : Option Int → Bool
  | some e => decide (now < e)
  | none => false

/-- Row-wise effect of the conditional
`UPDATE auth_credentials SET password = ?, reset_token = NULL,
reset_token_expires = NULL WHERE id = ? AND reset_token_expires > NOW()`:
a row is rewritten only when its id matches AND its expiry is still in
the future. -/
def applyResetUpdate (hashed : String) (now credId : Int)
    (c : CredentialRow) : CredentialRow :=
  if decide (c.id = credId) && expiresInFuture now c.reset_token_expires then
    { c with password := hashed, reset_token := none,
             reset_token_expires := none }
  else c

/-- Embedding of `AuthService.resetPassword`
(src/services/auth.service.js:304-341). `hash` models `bcrypt.hash(·, 10)`
and `now` models `NOW()`. The final statement is the conditional `UPDATE`
of `applyResetUpdate`; the method returns `true` whether or not that
`UPDATE` matched a row. The `catch` block rethrows a `ValidationError` and
wraps everything else as `DatabaseError('Failed to reset password')`. -/
def resetPassword (db : AuthDB) (hash : String → String) (now : Int)
    (token newPassword : String) : Except JsError Bool × AuthDB :=
  let inner : Except JsError Bool × AuthDB :=
    match db.credentials.filter (fun c => decide (c.reset_token = some token)) with
    | [] => (.error (.domain (.validation "Invalid or expired reset token" [])), db)
    | credential :: _ =>
      let hashed := hash newPassword
      let db' : AuthDB :=
        { db with credentials :=
            db.credentials.map (applyResetUpdate hashed now credential.id) }
      (.ok true, db')
  match inner with
  | (.ok r, db') => (.ok r, db')
  | (.error e, db') =>
    if e.isValidation then (.error e, db')
    else (.error (.domain (.database "Failed to reset password")), db')

end AuthService

/- ## Event service state (table `events`) -/

/-- A JavaScript value that may be a boolean or a string, as received for
boolean-ish request fields such as `is_featured`. -/
inductive JsBoolish where
  | bool (b : Bool)
  | str (s : String)
deriving Repr, DecidableEq

/-- Coercion used at event creation:
`is_featured === true || is_featured === 'true' ? true : false`. -/
def jsBoolishTrue : Option JsBoolish → Bool
  | some (.bool true) => true
  | some (.str "true") => true
  | _ => false

/-- JavaScript falsiness of an optional string field: absent (`undefined`
or `null`) and the empty string are falsy. -/
def falsyStr : Option String → Bool
  | none => true
  | some s => decide (s = "")

/-- Time normalization of the event services: a value of shape `HH:MM`
(two `:`-separated parts) gets `:00` appended. -/
def normalizeTime (t : String) : String :=
  if (t.splitOn ":").length = 2 then t ++ ":00" else t

/-- Row of the `events` table. -/
structure EventRow where
  id : Int
  event_name : String
  event_date : String
  event_time : String
  location : String
  event_type : String
  created_by : Int
  status : String
  is_featured : Bool
  is_home : Bool
  created_at : Int
  updated_at : Int
deriving Repr, DecidableEq

/-- State touched by `EventService`: the `events` table. -/
structure EventDB where
  events : List EventRow
deriving Repr, DecidableEq

/-- Input of `EventService.createEvent`; every field optional, as a raw
request body. -/
structure EventInput where
  event_name : Option String
  event_date : Option String
  event_time : Option String
  location : Option String
  event_type : Option String
  is_featured : Option JsBoolish
deriving Repr, DecidableEq

/-- Patch accepted by `EventService.updateEvent`: the updatable columns
plus the server-managed fields a client might try to smuggle in. -/
structure EventPatch where
  event_name : Option String
  event_date : Option String
  event_time : Option String
  location : Option String
  event_type : Option String
  status : Option String
  is_featured : Option JsBoolish
  created_by : Option Int
  created_at : Option Int
  updated_at : Option Int
deriving Repr, DecidableEq

namespace EventModel

/-- Modelled from the spec: `Event.findById`
(src/models/mysql/event.model.js, not under src/) runs a parameterized
`SELECT` by primary key (§6 persistence contract). -/
def findById (db : EventDB) (id : Int) : Option EventRow :=
  db.events.find? (fun e => decide (e.id = id))

/-- Modelled from the spec: `Event.create` runs a parameterized `INSERT`
and returns the fresh `insertId`, one past the largest existing id. -/
def create (db : EventDB) (row : Int → EventRow) : Int × EventDB :=
  let newId := (db.events.foldl (fun m e => max m e.id) 0) + 1
  (newId, { events := db.events ++ [row newId] })

/-- Modelled from the spec: `Event.update` runs a parameterized `UPDATE`
setting exactly the fields present in the patch on the row with the given
id (a boolean-ish `is_featured` value is stored via MySQL truthiness of
the normalized boolean). -/
def update (db : EventDB) (id : Int) (p : EventPatch) : Bool × EventDB :=
  let apply : EventRow → EventRow := fun e =>
    { e with
      event_name := p.event_name.getD e.event_name
      event_date := p.event_date.getD e.event_date
      event_time := p.event_time.getD e.event_time
      location := p.location.getD e.location
      event_type := p.event_type.getD e.event_type
      status := p.status.getD e.status
      is_featured := match p.is_featured with
        | some v => jsBoolishTrue (some v)
        | none => e.is_featured
      created_by := p.created_by.getD e.created_by
      created_at := p.created_at.getD e.created_at
      updated_at := p.updated_at.getD e.updated_at }
  (true, { events := db.events.map (fun e => if e.id = id then apply e else e) })

/-- Modelled from the spec: `Event.delete` runs a parameterized `DELETE`
by primary key. -/
def delete (db : EventDB) (id : Int) : Bool × EventDB :=
  (true, { events := db.events.filter (fun e => decide (e.id ≠ id)) })

/-- Modelled from the spec: `Event.updateFeaturedStatus` sets the
`is_featured` column of the row with the given id. -/
def updateFeaturedStatus (db : EventDB) (id : Int) (isFeatured : Bool) :
    Bool × EventDB :=
  (true, { events := db.events.map (fun e =>
      if e.id = id then { e with is_featured := isFeatured } else e) })

/-- Modelled from the spec: `Event.updateHomeStatus` sets the `is_home`
column of the row with the given id. -/
def updateHomeStatus (db : EventDB) (id : Int) (isHome : Bool) :
    Bool × EventDB :=
  (true, { events := db.events.map (fun e =>
      if e.id = id then { e with is_home := isHome } else e) })

/-- Modelled from the spec: `Event.updateStatus` sets the `status` column
of the row with the given id. -/
def updateStatus (db : EventDB) (id : Int) (status : String) :
    Bool × EventDB :=
  (true, { events := db.events.map (fun e =>
      if e.id = id then { e with status := status } else e) })

end EventModel

namespace EventService

/-- Field list of the `ValidationError` thrown by
`EventService.createEvent`: the full fixed list of required fields,
whatever subset is actually missing. -/
def requiredEventFields : List String :=
  ["event_name", "event_date", "event_time", "location", "event_type"]

/-- Embedding of `EventService.createEvent`
(src/services/event.service.js:14-54). `now` models the inserted
timestamps; the requester id is the already-resolved numeric caller
identity stored into `created_by`. The `catch` block rethrows a
`ValidationError` and wraps everything else as `DatabaseError`. -/
def createEvent (db : EventDB) (now : Int) (input : EventInput)
    (userId : Int) : Except JsError Int × EventDB :=
  if falsyStr input.event_name || falsyStr input.event_date ||
     falsyStr input.event_time || falsyStr input.location ||
     falsyStr input.event_type then
    (.error (.domain (.validation "Datos de evento incompletos" requiredEventFields)), db)
  else
    let time := match input.event_time with
      | some t => if ¬ decide (t = "") then normalizeTime t else t
      | none => ""
    let row : Int → EventRow := fun newId =>
      { id := newId
        event_name := (input.event_name).getD ""
        event_date := (input.event_date).getD ""
        event_time := time
        location := (input.location).getD ""
        event_type := (input.event_type).getD ""
        created_by := userId
        status := "activo"
        is_featured := jsBoolishTrue input.is_featured
        is_home := false
        created_at := now
        updated_at := now }
    let (eventId, db') := EventModel.create db row
    (.ok eventId, db')

/-- Embedding of `EventService.updateEvent`
(src/services/event.service.js:57-109): id-presence check, existence
check, ownership check against `parseInt(userId)`, then removal of the
server-managed fields `created_by`, `created_at`, `updated_at` from the
patch, time and `is_featured` normalization, and the persistence call. The
`catch` rethrows the three recognized kinds and wraps everything else as
`DatabaseError`. -/
def updateEvent (db : EventDB) (id : Option Int) (p : EventPatch)
    (userId : UserId) : Except JsError Bool × EventDB :=
  match id with
  | none => (.error (.domain (.validation "ID de evento es requerido" [])), db)
  | some id =>
    match EventModel.findById db id with
    | none => (.error (.domain (.notFound "Evento no encontrado")), db)
    | some event =>
      if ownerMismatch event.created_by userId then
        (.error (.domain (.authorization "No autorizado para actualizar este evento")), db)
      else
        let p := { p with created_by := none, created_at := none, updated_at := none }
        let p := { p with event_time := match p.event_time with
          | some t => if ¬ decide (t = "") ∧ (t.splitOn ":").length = 2
                      then some (t ++ ":00") else some t
          | none => none }
        let p := { p with is_featured := match p.is_featured with
          | some v => some (.bool (jsBoolishTrue (some v)))
          | none => none }
        let (updated, db') := EventModel.update db id p
        (.ok updated, db')

/-- Embedding of `EventService.deleteEvent`
(src/services/event.service.js:219-253): id-presence check, existence
check, ownership check against `parseInt(userId)`, then the delete. -/
def deleteEvent (db : EventDB) (id : Option Int) (userId : UserId) :
    Except JsError Bool × EventDB :=
  match id with
  | none => (.error (.domain (.validation "ID de evento es requerido" [])), db)
  | some id =>
    match EventModel.findById db id with
    | none => (.error (.domain (.notFound "Evento no encontrado")), db)
    | some event =>
      if ownerMismatch event.created_by userId then
        (.error (.domain (.authorization "No autorizado para eliminar este evento")), db)
      else
        let (deleted, db') := EventModel.delete db id
        (.ok deleted, db')

/-- Embedding of `EventService.updateFeaturedStatus`
(src/services/event.service.js:280-314): same id / existence / ownership
pattern, then the `is_featured` write. -/
def updateFeaturedStatus (db : EventDB) (id : Option Int)
    (isFeatured : Bool) (userId : UserId) : Except JsError Bool × EventDB :=
  match id with
  | none => (.error (.domain (.validation "ID de evento es requerido" [])), db)
  | some id =>
    match EventModel.findById db id with
    | none => (.error (.domain (.notFound "Evento no encontrado")), db)
    | some event =>
      if ownerMismatch event.created_by userId then
        (.error (.domain (.authorization "No autorizado para actualizar este evento")), db)
      else
        let (updated, db') := EventModel.updateFeaturedStatus db id isFeatured
        (.ok updated, db')

/-- Embedding of `EventService.updateHomeStatus`
(src/services/event.service.js:316-350): same id / existence / ownership
pattern, then the `is_home` write. -/
def updateHomeStatus (db : EventDB) (id : Option Int) (isHome : Bool)
    (userId : UserId) : Except JsError Bool × EventDB :=
  match id with
  | none => (.error (.domain (.validation "ID de evento es requerido" [])), db)
  | some id =>
    match EventModel.findById db id with
    | none => (.error (.domain (.notFound "Evento no encontrado")), db)
    | some event =>
      if ownerMismatch event.created_by userId then
        (.error (.domain (.authorization "No autorizado para actualizar este evento")), db)
      else
        let (updated, db') := EventModel.updateHomeStatus db id isHome
        (.ok updated, db')

/-- Status values accepted by `EventService.updateEventStatus`: the
enumeration is in Spanish in the code. -/
def allowedEventStatuses : List String :=
  ["activo", "cancelado", "pospuesto", "completado"]

/-- Embedding of `EventService.updateEventStatus`
(src/services/event.service.js:352-390): id-presence check, then the
status validation `!status || !['activo','cancelado','pospuesto',
'completado'].includes(status)` BEFORE the existence and ownership checks,
then the `status` write. -/
def updateEventStatus (db : EventDB) (id : Option Int) (status : String)
    (userId : UserId) : Except JsError Bool × EventDB :=
  match id with
  | none => (.error (.domain (.validation "ID de evento es requerido" [])), db)
  | some id =>
    if decide (status = "") || ! decide (status ∈ allowedEventStatuses) then
      (.error (.domain (.validation "Estado de evento inválido" [])), db)
    else
      match EventModel.findById db id with
      | none => (.error (.domain (.notFound "Evento no encontrado")), db)
      | some event =>
        if ownerMismatch event.created_by userId then
          (.error (.domain (.authorization "No autorizado para actualizar este evento")), db)
        else
          let (updated, db') := EventModel.updateStatus db id status
          (.ok updated, db')

end EventService

/- ## Blog service state (tables `blogs`, `users`) -/

/-- Row of the `blogs` table. -/
structure BlogRow where
  id : Int
  title : String
  category : String
  content : String
  author_id : Int
  is_featured : Bool
  active : Bool
  created_at : Int
  updated_at : Int
deriving Repr, DecidableEq

/-- State touched by `BlogService`: the `blogs` table plus the `users`
table that `updateFeaturedStatus` queries for the requester's role. -/
structure BlogDB where
  blogs : List BlogRow
  users : List UserRow
deriving Repr, DecidableEq

/-- Input of `BlogService.createBlog`; every field optional, as a raw
request body. -/
structure BlogInput where
  title : Option String
  category : Option String
  content : Option String
  is_featured : Option Bool
deriving Repr, DecidableEq

/-- Patch accepted by `BlogService.updateBlog`: the updatable columns plus
the server-managed fields a client might try to smuggle in. The service
passes it to the persistence layer unchanged. -/
structure BlogPatch where
  title : Option String
  category : Option String
  content : Option String
  is_featured : Option Bool
  active : Option Bool
  author_id : Option Int
  created_at : Option Int
  updated_at : Option Int
deriving Repr, DecidableEq

namespace BlogModel

/-- Modelled from the spec: `Blog.findById`
(src/models/mysql/blog.model.js, not under src/) runs a parameterized
`SELECT` by primary key (§6 persistence contract). -/
def findById (db : BlogDB) (id : Int) : Option BlogRow :=
  db.blogs.find? (fun b => decide (b.id = id))

/-- Modelled from the spec: `Blog.create` runs a parameterized `INSERT`
and returns the fresh `insertId`, one past the largest existing id. -/
def create (db : BlogDB) (row : Int → BlogRow) : Int × BlogDB :=
  let newId := (db.blogs.foldl (fun m b => max m b.id) 0) + 1
  (newId, { db with blogs := db.blogs ++ [row newId] })

/-- Modelled from the spec: `Blog.update` runs a parameterized `UPDATE`
setting exactly the fields present in the patch on the row with the given
id. -/
def update (db : BlogDB) (id : Int) (p : BlogPatch) : Bool × BlogDB :=
  let apply : BlogRow → BlogRow := fun b =>
    { b with
      title := p.title.getD b.title
      category := p.category.getD b.category
      content := p.content.getD b.content
      is_featured := p.is_featured.getD b.is_featured
      active := p.active.getD b.active
      author_id := p.author_id.getD b.author_id
      created_at := p.created_at.getD b.created_at
      updated_at := p.updated_at.getD b.updated_at }
  (true, { db with blogs := db.blogs.map (fun b => if b.id = id then apply b else b) })

/-- Modelled from the spec: `Blog.delete` runs a parameterized `DELETE`
by primary key. -/
def delete (db : BlogDB) (id : Int) : Bool × BlogDB :=
  (true, { db with blogs := db.blogs.filter (fun b => decide (b.id ≠ id)) })

/-- Modelled from the spec: `Blog.updateActiveStatus` sets the `active`
column of the row with the given id. -/
def updateActiveStatus (db : BlogDB) (id : Int) (isActive : Bool) :
    Bool × BlogDB :=
  (true, { db with blogs := db.blogs.map (fun b =>
      if b.id = id then { b with active := isActive } else b) })

/-- Modelled from the spec: `Blog.updateFeaturedStatus` sets the
`is_featured` column of the row with the given id. -/
def updateFeaturedStatus (db : BlogDB) (id : Int) (isFeatured : Bool) :
    Bool × BlogDB :=
  (true, { db with blogs := db.blogs.map (fun b =>
      if b.id = id then { b with is_featured := isFeatured } else b) })

end BlogModel

namespace BlogService

/-- Field list of the `ValidationError` thrown by
`BlogService.createBlog`: the full fixed list of required fields, whatever
subset is actually missing. -/
def requiredBlogFields : List String := ["title", "category", "content"]

/-- Embedding of `BlogService.createBlog`
(src/services/blog.service.js:14-43). `now` models the inserted
timestamps; the requester id is the already-resolved numeric caller
identity stored into `author_id`; `is_featured` defaults via
`blogData.is_featured || false`. -/
def createBlog (db : BlogDB) (now : Int) (input : BlogInput)
    (userId : Int) : Except JsError Int × BlogDB :=
  if falsyStr input.title || falsyStr input.category || falsyStr input.content then
    (.error (.domain (.validation "Datos de blog incompletos" requiredBlogFields)), db)
  else
    let row : Int → BlogRow := fun newId =>
      { id := newId
        title := (input.title).getD ""
        category := (input.category).getD ""
        content := (input.content).getD ""
        author_id := userId
        is_featured := (input.is_featured).getD false
        active := true
        created_at := now
        updated_at := now }
    let (blogId, db') := BlogModel.create db row
    (.ok blogId, db')

/-- Embedding of `BlogService.updateBlog`
(src/services/blog.service.js:144-178): id-presence check, existence
check, ownership check against `parseInt(userId)`, then
`Blog.update(id, blogData)` with the INCOMING PATCH UNCHANGED — no field
is stripped and no normalization is applied. -/
def updateBlog (db : BlogDB) (id : Option Int) (p : BlogPatch)
    (userId : UserId) : Except JsError Bool × BlogDB :=
  match id with
  | none => (.error (.domain (.validation "ID de blog es requerido" [])), db)
  | some id =>
    match BlogModel.findById db id with
    | none => (.error (.domain (.notFound "Blog no encontrado")), db)
    | some blog =>
      if ownerMismatch blog.author_id userId then
        (.error (.domain (.authorization "No autorizado para actualizar este blog")), db)
      else
        let (updated, db') := BlogModel.update db id p
        (.ok updated, db')

/-- Embedding of `BlogService.updateBlogStatus`
(src/services/blog.service.js:180-214): same id / existence / ownership
pattern, then the `active` write. -/
def updateBlogStatus (db : BlogDB) (id : Option Int) (isActive : Bool)
    (userId : UserId) : Except JsError Bool × BlogDB :=
  match id with
  | none => (.error (.domain (.validation "ID de blog es requerido" [])), db)
  | some id =>
    match BlogModel.findById db id with
    | none => (.error (.domain (.notFound "Blog no encontrado")), db)
    | some blog =>
      if ownerMismatch blog.author_id userId then
        (.error (.domain (.authorization "No autorizado para actualizar este blog")), db)
      else
        let (updated, db') := BlogModel.updateActiveStatus db id isActive
        (.ok updated, db')

/-- Embedding of `BlogService.deleteBlog`
(src/services/blog.service.js:216-250): id-presence check, existence
check, ownership check against `parseInt(userId)`, then the delete. -/
def deleteBlog (db : BlogDB) (id : Option Int) (userId : UserId) :
    Except JsError Bool × BlogDB :=
  match id with
  | none => (.error (.domain (.validation "ID de blog es requerido" [])), db)
  | some id =>
    match BlogModel.findById db id with
    | none => (.error (.domain (.notFound "Blog no encontrado")), db)
    | some blog =>
      if ownerMismatch blog.author_id userId then
        (.error (.domain (.authorization "No autorizado para eliminar este blog")), db)
      else
        let (deleted, db') := BlogModel.delete db id
        (.ok deleted, db')

/-- Admin lookup of `BlogService.updateFeaturedStatus`:
`SELECT role FROM users WHERE id = ?` with the raw requester identity
(MySQL coerces the bound value against the INT column), followed by
`userRows.length > 0 && userRows[0].role === 'admin'`. -/
def isAdminRequester (db : BlogDB) (userId : UserId) : Bool :=
  let userRows := db.users.filter (fun u => decide (u.id = mysqlIdValue userId))
  decide (0 < userRows.length) &&
    (match userRows with
     | u :: _ => decide (u.role = "admin")
     | [] => false)

/-- Embedding of `BlogService.updateFeaturedStatus`
(src/services/blog.service.js:280-322): id-presence check, existence
check, then the admin lookup and the combined check
`blog.author_id !== parseInt(userId) && !isAdmin`: a non-owner whose role
is `admin` is allowed through. -/
def updateFeaturedStatus (db : BlogDB) (id : Option Int)
    (isFeatured : Bool) (userId : UserId) : Except JsError Bool × BlogDB :=
  match id with
  | none => (.error (.domain (.validation "ID de blog es requerido" [])), db)
  | some id =>
    match BlogModel.findById db id with
    | none => (.error (.domain (.notFound "Blog no encontrado")), db)
    | some blog =>
      if ownerMismatch blog.author_id userId && ! isAdminRequester db userId then
        (.error (.domain (.authorization "No autorizado para actualizar este blog")), db)
      else
        let (updated, db') := BlogModel.updateFeaturedStatus db id isFeatured
        (.ok updated, db')

end BlogService

/- ## Concrete fixtures used by counterexamples and witnesses -/

/-- Fixture user of the `users` table. -/
def anaUser : UserRow :=
  { id := 1, first_name := "Ana", last_name := "Lopez",
    email := "ana@example.com", phone := none, status := "active",
    role := "user", refresh_token := none, last_login := none }

/-- Fixture auth state with one user and NO credential row. -/
def authDBnoCred : AuthDB := { users := [anaUser], credentials := [] }

/-- Fixture credential row whose reset token expired at time 5. -/
def expiredCred : CredentialRow :=
  { id := 1, user_id := 1, password := "oldhash",
    reset_token := some "tok", reset_token_expires := some 5 }

/-- Fixture auth state with one user and one expired-reset-token
credential row. -/
def authDBexpired : AuthDB := { users := [anaUser], credentials := [expiredCred] }

/-- Fixture event owned by user 1. -/
def fixtureEvent : EventRow :=
  { id := 1, event_name := "Feria", event_date := "2026-01-01",
    event_time := "14:30:00", location := "Ibagué", event_type := "feria",
    created_by := 1, status := "activo", is_featured := false,
    is_home := false, created_at := 0, updated_at := 0 }

/-- Fixture event state with one event owned by user 1. -/
def eventDB1 : EventDB := { events := [fixtureEvent] }

/-- Fixture blog authored by user 1. -/
def fixtureBlog : BlogRow :=
  { id := 1, title := "Titulo", category := "cultura", content := "texto",
    author_id := 1, is_featured := false, active := true,
    created_at := 0, updated_at := 0 }

/-- Fixture admin user with id 9. -/
def adminUser : UserRow :=
  { id := 9, first_name := "Root", last_name := "Admin",
    email := "admin@example.com", phone := none, status := "active",
    role := "admin", refresh_token := none, last_login := none }

/-- Fixture blog state with one blog authored by user 1 and an admin
user with id 9 in the `users` table. -/
def blogDB1 : BlogDB := { blogs := [fixtureBlog], users := [adminUser] }

/-- Empty event patch. -/
def emptyEventPatch : EventPatch :=
  { event_name := none, event_date := none, event_time := none,
    location := none, event_type := none, status := none,
    is_featured := none, created_by := none, created_at := none,
    updated_at := none }

/-- Empty blog patch. -/
def emptyBlogPatch : BlogPatch :=
  { title := none, category := none, content := none, is_featured := none,
    active := none, author_id := none, created_at := none,
    updated_at := none }

/-- C3 fixture input: only `event_name` missing, every other required
field supplied. -/
def eventInputMissingName : EventInput :=
  { event_name := none, event_date := some "2026-01-01",
    event_time := some "14:30", location := some "Ibagué",
    event_type := some "feria", is_featured := none }

/-- C5 fixture patch: a blog patch that smuggles in a new author
reference. -/
def authorPatch : BlogPatch := { emptyBlogPatch with author_id := some 99 }

/- ## C1: login failure messages -/

/-- C1 counterexample: at a store holding a user without a credential row,
login fails with the distinct message "No authentication credentials
found", while the unknown-email failure carries "Invalid email or
password", so the three login failure cases do NOT share one identical
generic message. -/
theorem login_credential_gap_message_differs :
    (AuthService.login authDBnoCred (fun _ _ => true) (fun _ => "a")
        (fun _ => "r") 0 "ana@example.com" "pw").1 =
      .error (.domain (.authentication "No authentication credentials found")) ∧
    (AuthService.login authDBnoCred (fun _ _ => true) (fun _ => "a")
        (fun _ => "r") 0 "bob@example.com" "pw").1 =
      .error (.domain (.authentication "Invalid email or password")) ∧
    ("No authentication credentials found" : String) ≠
      "Invalid email or password" :=
  ⟨rfl, rfl, by decide⟩

/-- C1 (amended): every failed login raises AuthenticationError; the
no-user-for-email case and the failed-hash-comparison case carry the
identical generic message "Invalid email or password" (so those two are
indistinguishable), but the missing-credential-row case carries the
distinct message "No authentication credentials found". -/
theorem login_failure_message_cases (db : AuthDB)
    (compare : String → String → Bool) (sa sr : UserRow → String)
    (now : Int) (email password : String) :
    (db.users.filter (fun x => decide (x.email = email)) = [] →
      (AuthService.login db compare sa sr now email password).1 =
        .error (.domain (.authentication "Invalid email or password"))) ∧
    (∀ u us c cs,
      db.users.filter (fun x => decide (x.email = email)) = u :: us →
      db.credentials.filter (fun x => decide (x.user_id = u.id)) = c :: cs →
      compare password c.password = false →
      (AuthService.login db compare sa sr now email password).1 =
        .error (.domain (.authentication "Invalid email or password"))) ∧
    (∀ u us,
      db.users.filter (fun x => decide (x.email = email)) = u :: us →
      db.credentials.filter (fun x => decide (x.user_id = u.id)) = [] →
      (AuthService.login db compare sa sr now email password).1 =
        .error (.domain (.authentication "No authentication credentials found"))) := by
  refine ⟨fun h => ?_, fun u us c cs hu hc hcmp => ?_, fun u us hu hc => ?_⟩
  · simp [AuthService.login, h, JsError.isAuthentication]
  · simp [AuthService.login, hu, hc, hcmp, JsError.isAuthentication]
  · simp [AuthService.login, hu, hc, JsError.isAuthentication]

/-- C1 witness: the missing-credential-row clause of
`login_failure_message_cases` at the concrete store `authDBnoCred`. -/
theorem login_failure_message_cases_witness :
    (AuthService.login authDBnoCred (fun _ _ => true) (fun _ => "a")
        (fun _ => "r") 0 "ana@example.com" "pw").1 =
      .error (.domain (.authentication "No authentication credentials found")) :=
  (login_failure_message_cases authDBnoCred (fun _ _ => true) (fun _ => "a")
      (fun _ => "r") 0 "ana@example.com" "pw").2.2 anaUser [] (by decide) (by decide)

/- ## C2: error wrapping in the credential subsystem -/

/-- C2 counterexample: requestPasswordReset with an unknown email surfaces
DatabaseError (its catch block wraps even its own NotFoundError), not
NotFoundError; and an injected persistence failure inside refreshToken
surfaces AuthenticationError (its catch block wraps every error), not
DatabaseError. -/
theorem credential_error_wrapping_counterexample :
    (AuthService.requestPasswordReset { users := [], credentials := [] }
        "tok" 100 "ghost@example.com").1 =
      .error (.domain (.database "Failed to process password reset request")) ∧
    (AuthService.refreshToken { users := [], credentials := [] }
        (fun _ => some ⟨1⟩) (some "connection lost") (fun _ => "acc") "t").1 =
      .error (.domain (.authentication "Invalid refresh token")) ∧
    JsError.isNotFound
      (.domain (.database "Failed to process password reset request")) = false :=
  ⟨rfl, rfl, rfl⟩

/-- C2 (amended): the catch block of requestPasswordReset wraps every
error — including the NotFoundError raised for an unknown email — as
DatabaseError, and the catch block of refreshToken wraps every error —
including an unexpected persistence failure — as AuthenticationError;
neither layer rethrows an already-classified error unchanged. -/
theorem credential_catch_all_wrapping (db : AuthDB) (resetTok : String)
    (expires : Int) (email : String)
    (verify : String → Option AuthService.TokenClaims) (faultMsg : String)
    (sign : UserRow → String) (token : String) :
    (db.users.filter (fun x => decide (x.email = email)) = [] →
      AuthService.requestPasswordReset db resetTok expires email =
        (.error (.domain (.database "Failed to process password reset request")), db)) ∧
    (∀ c, verify token = some c →
      AuthService.refreshToken db verify (some faultMsg) sign token =
        (.error (.domain (.authentication "Invalid refresh token")), db)) := by
  refine ⟨fun h => ?_, fun c hv => ?_⟩
  · simp [AuthService.requestPasswordReset, h]
  · simp [AuthService.refreshToken, hv]

/-- C2 witness: both clauses of `credential_catch_all_wrapping` at an
empty store. -/
theorem credential_catch_all_wrapping_witness :
    AuthService.requestPasswordReset { users := [], credentials := [] }
        "tok" 100 "ghost@example.com" =
      (.error (.domain (.database "Failed to process password reset request")),
        { users := [], credentials := [] }) ∧
    AuthService.refreshToken { users := [], credentials := [] }
        (fun _ => some ⟨1⟩) (some "boom") (fun _ => "acc") "t" =
      (.error (.domain (.authentication "Invalid refresh token")),
        { users := [], credentials := [] }) :=
  ⟨(credential_catch_all_wrapping { users := [], credentials := [] } "tok" 100
      "ghost@example.com" (fun _ => some ⟨1⟩) "boom" (fun _ => "acc") "t").1 rfl,
   (credential_catch_all_wrapping { users := [], credentials := [] } "tok" 100
      "ghost@example.com" (fun _ => some ⟨1⟩) "boom" (fun _ => "acc") "t").2 ⟨1⟩ rfl⟩

/- ## C3: validation field lists at resource creation -/

/-- C3 counterexample: with only `event_name` missing, createEvent reports
the full fixed list of five fields, so the reported list contains
`location` even though `location` was supplied — the list is NOT exactly
the missing fields. -/
theorem createEvent_fixed_field_list_counterexample :
    (EventService.createEvent { events := [] } 0 eventInputMissingName 1).1 =
      .error (.domain (.validation "Datos de evento incompletos"
        ["event_name", "event_date", "event_time", "location", "event_type"])) ∧
    "location" ∈ (["event_name", "event_date", "event_time", "location",
      "event_type"] : List String) ∧
    eventInputMissingName.location = some "Ibagué" :=
  ⟨rfl, by decide, rfl⟩

/-- C3 (amended): whenever at least one required field is missing, the
creation call fails with a ValidationError whose field list is the full
fixed list of that resource's required fields (all five for events, all
three for blogs), regardless of which fields are actually missing. -/
theorem create_validation_reports_fixed_list (edb : EventDB) (bdb : BlogDB)
    (now : Int) (ei : EventInput) (bi : BlogInput) (uid : Int) :
    ((falsyStr ei.event_name || falsyStr ei.event_date ||
        falsyStr ei.event_time || falsyStr ei.location ||
        falsyStr ei.event_type) = true →
      EventService.createEvent edb now ei uid =
        (.error (.domain (.validation "Datos de evento incompletos"
          EventService.requiredEventFields)), edb)) ∧
    ((falsyStr bi.title || falsyStr bi.category || falsyStr bi.content) = true →
      BlogService.createBlog bdb now bi uid =
        (.error (.domain (.validation "Datos de blog incompletos"
          BlogService.requiredBlogFields)), bdb)) := by
  refine ⟨fun h => ?_, fun h => ?_⟩
  · simp [EventService.createEvent, h]
  · simp [BlogService.createBlog, h]

/-- C3 witness: both clauses of `create_validation_reports_fixed_list` at
inputs missing one required field each. -/
theorem create_validation_reports_fixed_list_witness :
    EventService.createEvent { events := [] } 0 eventInputMissingName 1 =
      (.error (.domain (.validation "Datos de evento incompletos"
        EventService.requiredEventFields)), { events := [] }) ∧
    BlogService.createBlog { blogs := [], users := [] } 0
        { title := some "T", category := some "C", content := none,
          is_featured := none } 1 =
      (.error (.domain (.validation "Datos de blog incompletos"
        BlogService.requiredBlogFields)), { blogs := [], users := [] }) :=
  ⟨(create_validation_reports_fixed_list { events := [] }
      { blogs := [], users := [] } 0 eventInputMissingName
      { title := some "T", category := some "C", content := none,
        is_featured := none } 1).1 (by decide),
   (create_validation_reports_fixed_list { events := [] }
      { blogs := [], users := [] } 0 eventInputMissingName
      { title := some "T", category := some "C", content := none,
        is_featured := none } 1).2 (by decide)⟩

/- ## C4: duplicate registration and transactional rollback -/

/-- C4: a register call whose email is already present fails with
ValidationError and returns the store unchanged (the duplicate check runs
before any write, so the existing user record is untouched and no partial
state is created); and a register call whose credential insertion fails
after the user insertion rolls the transaction back, returning the store
unchanged — no orphaned user row — and surfaces DatabaseError. -/
theorem register_duplicate_email_and_rollback (db : AuthDB)
    (hash : String → String) (input : AuthService.RegisterInput) :
    (∀ flag, 0 < (db.users.filter (fun u => decide (u.email = input.email))).length →
      AuthService.register db hash flag input =
        (.error (.domain (.validation "Email is already registered" [])), db)) ∧
    ((db.users.filter (fun u => decide (u.email = input.email))).length = 0 →
      AuthService.register db hash true input =
        (.error (.domain (.database "Failed to register user")), db)) := by
  refine ⟨fun flag h => ?_, fun h => ?_⟩
  · simp [AuthService.register, h, JsError.isValidation]
  · simp [AuthService.register, h, JsError.isValidation]

/-- C4 witness: both clauses of `register_duplicate_email_and_rollback` at
the concrete store `authDBnoCred`. -/
theorem register_duplicate_email_and_rollback_witness :
    AuthService.register authDBnoCred (fun s => s) false
        { first_name := "A", last_name := "B", email := "ana@example.com",
          phone := none, password := "pw" } =
      (.error (.domain (.validation "Email is already registered" [])),
        authDBnoCred) ∧
    AuthService.register authDBnoCred (fun s => s) true
        { first_name := "A", last_name := "B", email := "new@example.com",
          phone := none, password := "pw" } =
      (.error (.domain (.database "Failed to register user")), authDBnoCred) :=
  ⟨(register_duplicate_email_and_rollback authDBnoCred (fun s => s)
      { first_name := "A", last_name := "B", email := "ana@example.com",
        phone := none, password := "pw" }).1 false (by decide),
   (register_duplicate_email_and_rollback authDBnoCred (fun s => s)
      { first_name := "A", last_name := "B", email := "new@example.com",
        phone := none, password := "pw" }).2 (by decide)⟩

/- ## C5: server-managed fields in update patches -/

/-- C5 counterexample: updateBlog does not strip the owner reference from
the incoming patch, so an update by the author with a patch containing
`author_id: 99` changes the stored blog's author reference from 1
to 99. -/
theorem updateBlog_author_change_counterexample :
    (BlogService.updateBlog blogDB1 (some 1) authorPatch (.num 1)).2.blogs =
      [{ fixtureBlog with author_id := 99 }] ∧
    fixtureBlog.author_id = 1 :=
  ⟨rfl, rfl⟩

/-- C5 (amended): the event service strips `created_by`, `created_at` and
`updated_at` from the incoming patch before persisting, so no event row's
owner reference or timestamps ever change through updateEvent; the blog
service performs no such stripping and hands the incoming patch to the
persistence layer unchanged, so a blog update can change the author
reference. -/
theorem update_server_managed_fields (db : EventDB) (oid : Option Int)
    (p : EventPatch) (uid : UserId) (bdb : BlogDB) (bid : Int)
    (q : BlogPatch) (buid : UserId) :
    (∀ e, e ∈ (EventService.updateEvent db oid p uid).2.events →
      ∃ e₀, e₀ ∈ db.events ∧ e.id = e₀.id ∧ e.created_by = e₀.created_by ∧
        e.created_at = e₀.created_at ∧ e.updated_at = e₀.updated_at) ∧
    (∀ blog, BlogModel.findById bdb bid = some blog →
      ownerMismatch blog.author_id buid = false →
      BlogService.updateBlog bdb (some bid) q buid =
        (.ok true, (BlogModel.update bdb bid q).2)) := by
  constructor
  · intro e he
    cases oid with
    | none =>
      simp only [EventService.updateEvent] at he
      exact ⟨e, he, rfl, rfl, rfl, rfl⟩
    | some i =>
      simp only [EventService.updateEvent] at he
      cases hfind : EventModel.findById db i with
      | none =>
        rw [hfind] at he
        exact ⟨e, he, rfl, rfl, rfl, rfl⟩
      | some ev =>
        rw [hfind] at he
        cases hmm : ownerMismatch ev.created_by uid with
        | true =>
          simp only [hmm, if_true] at he
          exact ⟨e, he, rfl, rfl, rfl, rfl⟩
        | false =>
          simp only [hmm, Bool.false_eq_true, if_false, EventModel.update,
            List.mem_map] at he
          obtain ⟨e₀, he₀, rfl⟩ := he
          refine ⟨e₀, he₀, ?_, ?_, ?_, ?_⟩ <;>
            by_cases hid : e₀.id = i <;> simp [hid]
  · intro blog hb hm
    simp [BlogService.updateBlog, hb, hm, BlogModel.update]

/-- C5 witness: the event-frame clause of `update_server_managed_fields`
applied to the row produced by an update whose patch smuggles
`created_by`, plus the blog pass-through clause at `blogDB1`. -/
theorem update_server_managed_fields_witness :
    (∃ e₀, e₀ ∈ eventDB1.events ∧ fixtureEvent.id = e₀.id ∧
      fixtureEvent.created_by = e₀.created_by ∧
      fixtureEvent.created_at = e₀.created_at ∧
      fixtureEvent.updated_at = e₀.updated_at) ∧
    BlogService.updateBlog blogDB1 (some 1) emptyBlogPatch (.num 1) =
      (.ok true, (BlogModel.update blogDB1 1 emptyBlogPatch).2) :=
  ⟨(update_server_managed_fields eventDB1 (some 1)
      { emptyEventPatch with created_by := some 7 } (.num 1) blogDB1 1
      emptyBlogPatch (.num 1)).1 fixtureEvent (by decide),
   (update_server_managed_fields eventDB1 (some 1)
      { emptyEventPatch with created_by := some 7 } (.num 1) blogDB1 1
      emptyBlogPatch (.num 1)).2 fixtureBlog (by decide) (by decide)⟩

/- ## C6 and C9: password reset with an expired token -/

/-- Helper: the conditional reset UPDATE leaves a row with an expired (or
absent) expiry untouched, whatever id the WHERE clause targets. -/
theorem applyResetUpdate_expired (hashed : String) (now credId : Int)
    (c : CredentialRow) (e : Int) (hexp : c.reset_token_expires = some e)
    (hle : e ≤ now) : AuthService.applyResetUpdate hashed now credId c = c := by
  have hne : ¬ now < e := by omega
  simp [AuthService.applyResetUpdate, AuthService.expiresInFuture, hexp, hne]

/-- C6: a credential row whose reset-token expiry is in the past is left
completely unchanged (password hash, reset token and expiry included) by a
resetPassword call with that row's token: the conditional UPDATE
(`... AND reset_token_expires > NOW()`) matches no row, and the table
keeps the same number of rows. -/
theorem resetPassword_expired_token_noop (db : AuthDB)
    (hash : String → String) (now : Int) (token newPassword : String)
    (c : CredentialRow) (e : Int) :
    c ∈ db.credentials → c.reset_token = some token →
    c.reset_token_expires = some e → e ≤ now →
    c ∈ (AuthService.resetPassword db hash now token newPassword).2.credentials ∧
    (AuthService.resetPassword db hash now token
        newPassword).2.credentials.length = db.credentials.length := by
  intro hc htok hexp hle
  simp only [AuthService.resetPassword]
  cases hfilter : db.credentials.filter (fun x => decide (x.reset_token = some token)) with
  | nil =>
    simp [hfilter, hc, JsError.isValidation]
  | cons cred rest =>
    simp only [hfilter]
    constructor
    · exact List.mem_map.mpr
        ⟨c, hc, applyResetUpdate_expired (hash newPassword) now cred.id c e hexp hle⟩
    · simp
  
/-- C6 witness: `resetPassword_expired_token_noop` at the concrete store
`authDBexpired`, whose only credential row expired at time 5, called at
time 10. -/
theorem resetPassword_expired_token_noop_witness :
    expiredCred ∈ (AuthService.resetPassword authDBexpired (fun s => s ++ "h")
        10 "tok" "newpw").2.credentials ∧
    (AuthService.resetPassword authDBexpired (fun s => s ++ "h") 10 "tok"
        "newpw").2.credentials.length = authDBexpired.credentials.length :=
  resetPassword_expired_token_noop authDBexpired (fun s => s ++ "h") 10 "tok"
    "newpw" expiredCred 5 (by decide) rfl rfl (by decide)

/-- C9: whenever some credential row matches the supplied reset token,
resetPassword reports success (`Except.ok true`) — even when the stored
expiry is already in the past and the conditional UPDATE therefore changes
no row, the caller never sees an error for an expired-token attempt. -/
theorem resetPassword_reports_success (db : AuthDB) (hash : String → String)
    (now : Int) (token newPassword : String) (c : CredentialRow)
    (rest : List CredentialRow) :
    db.credentials.filter (fun x => decide (x.reset_token = some token)) =
      c :: rest →
    (AuthService.resetPassword db hash now token newPassword).1 = .ok true := by
  intro h
  simp [AuthService.resetPassword, h]

/-- C9 witness: `resetPassword_reports_success` at `authDBexpired`, whose
matching row's expiry (5) is before `now` (10): the call still reports
success. -/
theorem resetPassword_reports_success_witness :
    (AuthService.resetPassword authDBexpired (fun s => s) 10 "tok" "new").1 =
      .ok true :=
  resetPassword_reports_success authDBexpired (fun s => s) 10 "tok" "new"
    expiredCred [] (by decide)

/- ## C7: event status enumeration -/

/-- C7 counterexample: the accepted enumeration is the Spanish
activo/cancelado/pospuesto/completado, not
active/cancelled/postponed/completed: the owner's call with status
`"activo"` — a value outside the English enumeration — is accepted, not
rejected with ValidationError. -/
theorem updateEventStatus_spanish_enum_counterexample :
    (EventService.updateEventStatus eventDB1 (some 1) "activo" (.num 1)).1 =
      .ok true ∧
    ("activo" : String) ∉ (["active", "cancelled", "postponed",
      "completed"] : List String) :=
  ⟨rfl, by decide⟩

/-- C7 (amended): updateEventStatus validates the new status against the
fixed Spanish enumeration activo/cancelado/pospuesto/completado; any value
outside it is rejected with ValidationError whatever the store contains
(so before any existence or ownership check), and an allowed value on an
existing, owned event is persisted. -/
theorem updateEventStatus_enum (db : EventDB) (id : Int) (status : String)
    (uid : UserId) :
    (status ∉ EventService.allowedEventStatuses →
      EventService.updateEventStatus db (some id) status uid =
        (.error (.domain (.validation "Estado de evento inválido" [])), db)) ∧
    (∀ event, status ∈ EventService.allowedEventStatuses →
      EventModel.findById db id = some event →
      ownerMismatch event.created_by uid = false →
      EventService.updateEventStatus db (some id) status uid =
        (.ok true, (EventModel.updateStatus db id status).2)) := by
  refine ⟨fun h => ?_, fun event hstat hfind hmm => ?_⟩
  · simp [EventService.updateEventStatus, h]
  · have hne : status ≠ "" := by
      have hs := hstat
      fin_cases hs <;> decide
    simp [EventService.updateEventStatus, hne, hstat, hfind, hmm,
      EventModel.updateStatus]

/-- C7 witness: both clauses of `updateEventStatus_enum` at `eventDB1`:
`"archived"` is rejected, `"cancelado"` is persisted. -/
theorem updateEventStatus_enum_witness :
    EventService.updateEventStatus eventDB1 (some 1) "archived" (.num 1) =
      (.error (.domain (.validation "Estado de evento inválido" [])),
        eventDB1) ∧
    EventService.updateEventStatus eventDB1 (some 1) "cancelado" (.num 1) =
      (.ok true, (EventModel.updateStatus eventDB1 1 "cancelado").2) :=
  ⟨(updateEventStatus_enum eventDB1 1 "archived" (.num 1)).1 (by decide),
   (updateEventStatus_enum eventDB1 1 "cancelado" (.num 1)).2 fixtureEvent
     (by decide) (by decide) (by decide)⟩

/- ## C8: ownership-based authorization -/

/-- C8 counterexample: requester 2 is not the owner (user 1) of the
existing event 1, yet the call with the otherwise-invalid status
`"archived"` fails with ValidationError, not AuthorizationError: the
status validation precedes the ownership check. -/
theorem nonowner_invalid_data_counterexample :
    EventService.updateEventStatus eventDB1 (some 1) "archived" (.num 2) =
      (.error (.domain (.validation "Estado de evento inválido" [])),
        eventDB1) ∧
    fixtureEvent.created_by = 1 ∧ ((2 : Int) ≠ 1) :=
  ⟨rfl, rfl, by decide⟩

/-- C8 (amended): for update/delete calls and status/feature mutators on
an existing event or blog, a requester who is not the owner gets
AuthorizationError — with two exceptions: a blog's featured status may
also be changed by a non-owner whose role is admin, and the event status
mutator validates the status value first, so a non-owner supplying an
invalid status gets ValidationError rather than AuthorizationError (only
an allowed status reaches the ownership check). -/
theorem ownership_authorization (edb : EventDB) (bdb : BlogDB) (id : Int)
    (p : EventPatch) (q : BlogPatch) (uid : UserId) (flag : Bool)
    (status : String) :
    (∀ event, EventModel.findById edb id = some event →
      ownerMismatch event.created_by uid = true →
      (EventService.updateEvent edb (some id) p uid).1 =
        .error (.domain (.authorization "No autorizado para actualizar este evento")) ∧
      (EventService.deleteEvent edb (some id) uid).1 =
        .error (.domain (.authorization "No autorizado para eliminar este evento")) ∧
      (EventService.updateFeaturedStatus edb (some id) flag uid).1 =
        .error (.domain (.authorization "No autorizado para actualizar este evento")) ∧
      (EventService.updateHomeStatus edb (some id) flag uid).1 =
        .error (.domain (.authorization "No autorizado para actualizar este evento")) ∧
      (status ∈ EventService.allowedEventStatuses →
        (EventService.updateEventStatus edb (some id) status uid).1 =
          .error (.domain (.authorization "No autorizado para actualizar este evento")))) ∧
    (∀ blog, BlogModel.findById bdb id = some blog →
      ownerMismatch blog.author_id uid = true →
      (BlogService.updateBlog bdb (some id) q uid).1 =
        .error (.domain (.authorization "No autorizado para actualizar este blog")) ∧
      (BlogService.updateBlogStatus bdb (some id) flag uid).1 =
        .error (.domain (.authorization "No autorizado para actualizar este blog")) ∧
      (BlogService.deleteBlog bdb (some id) uid).1 =
        .error (.domain (.authorization "No autorizado para eliminar este blog")) ∧
      (BlogService.isAdminRequester bdb uid = false →
        (BlogService.updateFeaturedStatus bdb (some id) flag uid).1 =
          .error (.domain (.authorization "No autorizado para actualizar este blog"))) ∧
      (BlogService.isAdminRequester bdb uid = true →
        (BlogService.updateFeaturedStatus bdb (some id) flag uid).1 =
          .ok true)) := by
  constructor
  · intro event hfind hmm
    refine ⟨?_, ?_, ?_, ?_, fun hstat => ?_⟩
    · simp [EventService.updateEvent, hfind, hmm]
    · simp [EventService.deleteEvent, hfind, hmm]
    · simp [EventService.updateFeaturedStatus, hfind, hmm]
    · simp [EventService.updateHomeStatus, hfind, hmm]
    · have hne : status ≠ "" := by
        have hs := hstat
        fin_cases hs <;> decide
      simp [EventService.updateEventStatus, hne, hstat, hfind, hmm]
  · intro blog hfind hmm
    refine ⟨?_, ?_, ?_, fun hadm => ?_, fun hadm => ?_⟩
    · simp [BlogService.updateBlog, hfind, hmm]
    · simp [BlogService.updateBlogStatus, hfind, hmm]
    · simp [BlogService.deleteBlog, hfind, hmm]
    · simp [BlogService.updateFeaturedStatus, hfind, hmm, hadm]
    · simp [BlogService.updateFeaturedStatus, hfind, hmm, hadm,
        BlogModel.updateFeaturedStatus]

/-- C8 witness: three clauses of `ownership_authorization` at the concrete
stores: non-owner 2 on event 1, non-owner non-admin 2 on blog 1, and the
admin exception for user 9 on blog 1's featured status. -/
theorem ownership_authorization_witness :
    (EventService.updateEvent eventDB1 (some 1) emptyEventPatch (.num 2)).1 =
      .error (.domain (.authorization "No autorizado para actualizar este evento")) ∧
    (BlogService.updateFeaturedStatus blogDB1 (some 1) true (.num 2)).1 =
      .error (.domain (.authorization "No autorizado para actualizar este blog")) ∧
    (BlogService.updateFeaturedStatus blogDB1 (some 1) true (.num 9)).1 =
      .ok true :=
  ⟨((ownership_authorization eventDB1 blogDB1 1 emptyEventPatch emptyBlogPatch
      (.num 2) true "activo").1 fixtureEvent (by decide) (by decide)).1,
   (((ownership_authorization eventDB1 blogDB1 1 emptyEventPatch emptyBlogPatch
      (.num 2) true "activo").2 fixtureBlog (by decide) (by decide)).2.2.2).1
      (by decide),
   (((ownership_authorization eventDB1 blogDB1 1 emptyEventPatch emptyBlogPatch
      (.num 9) true "activo").2 fixtureBlog (by decide) (by decide)).2.2.2).2
      (by decide)⟩

/- ## C10: string and numeric requester ids authorize the same calls -/

/-- C10: every ownership check of the event and blog services (update,
delete, and the status/featured mutators) converts the requester identity
with `parseInt` before the comparison (and the blog admin lookup coerces
it numerically), so a requester id supplied as the decimal string of `n`
produces exactly the same result — errors, values and resulting store —
as the number `n` on every such call. -/
theorem string_requester_id_equivalent (s : String) (n : Nat)
    (h : decimalNat? s = some n) :
    (∀ edb oid p, EventService.updateEvent edb oid p (.str s) =
      EventService.updateEvent edb oid p (.num (n : Int))) ∧
    (∀ edb oid, EventService.deleteEvent edb oid (.str s) =
      EventService.deleteEvent edb oid (.num (n : Int))) ∧
    (∀ edb oid b, EventService.updateFeaturedStatus edb oid b (.str s) =
      EventService.updateFeaturedStatus edb oid b (.num (n : Int))) ∧
    (∀ edb oid b, EventService.updateHomeStatus edb oid b (.str s) =
      EventService.updateHomeStatus edb oid b (.num (n : Int))) ∧
    (∀ edb oid st, EventService.updateEventStatus edb oid st (.str s) =
      EventService.updateEventStatus edb oid st (.num (n : Int))) ∧
    (∀ bdb oid q, BlogService.updateBlog bdb oid q (.str s) =
      BlogService.updateBlog bdb oid q (.num (n : Int))) ∧
    (∀ bdb oid b, BlogService.updateBlogStatus bdb oid b (.str s) =
      BlogService.updateBlogStatus bdb oid b (.num (n : Int))) ∧
    (∀ bdb oid, BlogService.deleteBlog bdb oid (.str s) =
      BlogService.deleteBlog bdb oid (.num (n : Int))) ∧
    (∀ bdb oid b, BlogService.updateFeaturedStatus bdb oid b (.str s) =
      BlogService.updateFeaturedStatus bdb oid b (.num (n : Int))) := by
  have hom : ∀ o, ownerMismatch o (.str s) = ownerMismatch o (.num (n : Int)) := by
    intro o
    simp [ownerMismatch, parseIntJs, h]
  have hadm : ∀ bdb, BlogService.isAdminRequester bdb (.str s) =
      BlogService.isAdminRequester bdb (.num (n : Int)) := by
    intro bdb
    simp [BlogService.isAdminRequester, mysqlIdValue, h]
  refine ⟨?_, ?_, ?_, ?_, ?_, ?_, ?_, ?_, ?_⟩ <;> intros <;>
    simp only [EventService.updateEvent, EventService.deleteEvent,
      EventService.updateFeaturedStatus, EventService.updateHomeStatus,
      EventService.updateEventStatus, BlogService.updateBlog,
      BlogService.updateBlogStatus, BlogService.deleteBlog,
      BlogService.updateFeaturedStatus, hom, hadm]

/-- C10 witness: `string_requester_id_equivalent` at `s = "7"`, `n = 7`,
on a concrete update call. -/
theorem string_requester_id_equivalent_witness :
    (decimalNat? "7" = some 7) ∧
    EventService.updateEvent eventDB1 (some 1) emptyEventPatch (.str "7") =
      EventService.updateEvent eventDB1 (some 1) emptyEventPatch (.num 7) :=
  ⟨by decide,
   (string_requester_id_equivalent "7" 7 (by decide)).1 eventDB1 (some 1)
     emptyEventPatch⟩
